import Mathlib

/-!
Shallow embedding of the decent-share peer node core (src/src/network/*),
together with theorems settling the frozen claims about it.

Modelling conventions:
* `PeerId` is an opaque identifier (libp2p peer ids are opaque byte strings
  derived from a public key); we wrap a `Nat`.
* Rust `HashMap`s and `HashSet`s become association lists / lists with the
  same insert/remove/lookup semantics (`mapInsert` replaces an existing key,
  exactly like `HashMap::insert`).
* One-shot reply channels are identified by a `Chan` token; a handler
  "signals" a channel by producing a `signal…` effect carrying that token.
* The overlay swarm is not modelled; every outbound overlay interaction a
  handler performs (DHT put/get, request/response send, dial, gossip
  publish, …) becomes an `Effect` in the handler's returned effect list.
  Request/query ids allocated by the overlay are modelled by a `next_id`
  counter in the event-loop state.
* `panic!`-style termination (Rust `expect` on a failed lookup, `todo!`)
  is modelled by an `Except`/`Option` result whose error/none case marks
  the panic.  Sends on our modelled channels always succeed, so `expect`
  applied to a channel send never fails in the model.
* UTF-8 encoding/decoding of usernames is abstracted to one code point per
  byte; no claim depends on the details of the encoding.
-/

namespace DecentShare

/-- Opaque peer identifier (libp2p `PeerId`). -/
structure PeerId where
  id : Nat
deriving DecidableEq, Repr

/-- Raw byte buffers (`Vec<u8>`); bytes abstracted to `Nat`. -/
abbrev Bytes := List Nat

/-- Overlay-assigned DHT query identifier (`kad::QueryId`). -/
abbrev QueryId := Nat

/-- Overlay-assigned outbound request identifier (`OutboundRequestId`). -/
abbrev RequestId := Nat

/-- Token identifying a one-shot reply channel (`oneshot::Sender`). -/
abbrev Chan := Nat

/-- `TradeOffer` from src/src/network/mod.rs: the pair of file names that
identifies a trade; equality is structural over both strings. -/
structure TradeOffer where
  offered_file_name : String
  requested_file_name : String
deriving DecidableEq, Repr

/-- `TradeResponse` from src/src/network/mod.rs. -/
structure TradeResponse where
  requested_file_name : String
  offered_file_name : String
  requested_file_bytes : Option Bytes
deriving DecidableEq, Repr

/-- `TradeResponseResponse` from src/src/network/mod.rs. -/
structure TradeResponseResponse where
  offered_file_name : String
  requested_file_name : String
  offered_file_bytes : Option Bytes
deriving DecidableEq, Repr

/-- One component of a multiaddress; only the trailing `/p2p/<peer>`
component matters to the embedded code, all others are opaque. -/
inductive MaComponent where
  | p2p (peer : PeerId)
  | other (s : String)
deriving DecidableEq, Repr

/-- A multiaddress is a sequence of components. -/
abbrev Multiaddr := List MaComponent

/-- A rendezvous registration record: the registering peer and its
advertised addresses (`rendezvous::Registration`). -/
structure Registration where
  peer_id : PeerId
  addresses : List Multiaddr
deriving DecidableEq, Repr

/-- Events emitted to the application layer (`event_loop::Event`). -/
inductive Event where
  | inboundTradeOffer (offered_file_name : String) (peer_id : PeerId)
      (requested_file_name : String)
  | inboundTradeResponse (peer_id : PeerId) (offered_file_name : String)
      (requested_file_name : String) (was_accepted : Bool)
  | inboundDirectMessage (peer_id : PeerId) (message : String)
  | inboundChat (peer_id : PeerId) (message : String)
  | registrationRequest (username : String)
deriving DecidableEq, Repr

deriving instance DecidableEq for Except

/-- Observable actions a handler performs besides updating its own state:
overlay operations, reply-channel signals, filesystem writes and
application-layer events. -/
inductive Effect where
  | dhtGetRecord (key : Bytes) (query_id : QueryId)
  | dhtPutRecord (key : Bytes) (value : Bytes) (query_id : QueryId)
  | sendTradeOfferRequest (peer : PeerId) (offer : TradeOffer) (request_id : RequestId)
  | sendTradeResponseRequest (peer : PeerId) (response : TradeResponse) (request_id : RequestId)
  | sendDirectMessageRequest (peer : PeerId) (message : String) (request_id : RequestId)
  | sendResponseEmpty (channel : Chan)
  | sendTradeResponseResponse (channel : Chan) (response : TradeResponseResponse)
  | signalPeerId (channel : Chan) (value : Option PeerId)
  | signalUsername (channel : Chan) (value : Except String String)
  | signalRegisterStatus (channel : Chan) (value : Except String Unit)
  | signalAck (channel : Chan) (value : Except String Unit)
  | signalSettlement (channel : Chan) (value : Except String (Option Bytes))
  | signalChatStatus (channel : Chan) (value : Except String Unit)
  | writeFile (path : String) (bytes : Bytes)
  | dial (address : Multiaddr)
  | kadAddAddress (peer : PeerId) (address : Multiaddr)
  | gossipAddExplicitPeer (peer : PeerId)
  | publishGossip (topic : String) (data : Bytes)
  | emit (event : Event)
deriving DecidableEq, Repr

/-! ### Association-list maps with `HashMap` semantics -/

/-- `HashMap::get`: value stored under the first occurrence of `k`. -/
def lookup [DecidableEq α] (m : List (α × β)) (k : α) : Option β :=
  (m.find? (fun p => decide (p.1 = k))).map (fun p => p.2)

/-- `HashMap::insert`: replace any existing binding of `k` with `v`. -/
def mapInsert [DecidableEq α] (m : List (α × β)) (k : α) (v : β) : List (α × β) :=
  (k, v) :: m.filter (fun p => ¬ p.1 = k)

/-- `HashMap::remove`: drop the binding of `k`, if any. -/
def mapRemove [DecidableEq α] (m : List (α × β)) (k : α) : List (α × β) :=
  m.filter (fun p => ¬ p.1 = k)

/-- `HashSet::insert`. -/
def setInsert [DecidableEq α] (s : List α) (x : α) : List α :=
  if x ∈ s then s else x :: s

/-- `HashSet::remove`: returns whether the element was present, plus the
set with the element dropped. -/
def setRemove [DecidableEq α] (s : List α) (x : α) : Bool × List α :=
  (decide (x ∈ s), s.filter (fun y => ¬ y = x))

/-- Abstraction of `String::into_bytes` (UTF-8): one code point per byte. -/
def utf8Bytes (s : String) : Bytes :=
  s.toList.map Char.toNat

/-- Abstraction of `String::from_utf8`: succeeds exactly when every byte is
a valid scalar value. -/
def utf8DecodeBytes (b : Bytes) : Except String String :=
  if b.all (fun n => n < 55296 ∨ (57343 < n ∧ n < 1114112)) then
    Except.ok (String.mk (b.map Char.ofNat))
  else
    Except.error "invalid utf-8 sequence"

/-! ### UsernameStore (src/src/network/username_store.rs) -/

/-- `UsernameStore`: forward username → peer-id map and reverse
peer-id → username map.  The Rust code stores keys exactly as given; no
lowercasing happens inside the store. -/
structure UsernameStore where
  username_peer_id_map : List (String × PeerId)
  peer_id_username_map : List (PeerId × String)
deriving DecidableEq, Repr

/-- The empty store (`UsernameStore::default()`). -/
def UsernameStore.empty : UsernameStore :=
  { username_peer_id_map := [], peer_id_username_map := [] }

/-- Panic message produced by the unfinished miss path of
`UsernameStore::get_peer_id` (the Rust source reads
`todo!("Find Peeer ID of given username")`). -/
def peerIdTodoMsg : String := "not yet implemented: Find Peeer ID of given username"

/-- Panic message produced by the unfinished miss path of
`UsernameStore::get_username`. -/
def usernameTodoMsg : String := "not yet implemented: Find username for given Peer ID"

/-- `UsernameStore::get_peer_id`: returns the cached value when present;
the miss path is `todo!()`, i.e. a panic, modelled as `Except.error`. -/
def UsernameStore.get_peer_id (s : UsernameStore) (username : String) :
    Except String (Option PeerId) :=
  let cached_value := lookup s.username_peer_id_map username
  if cached_value.isSome then
    Except.ok cached_value
  else
    Except.error peerIdTodoMsg

/-- `UsernameStore::get_username`: returns the cached value when present;
the miss path is `todo!()`, i.e. a panic. -/
def UsernameStore.get_username (s : UsernameStore) (peer_id : PeerId) :
    Except String (Option String) :=
  let cached_value := lookup s.peer_id_username_map peer_id
  if cached_value.isSome then
    Except.ok cached_value
  else
    Except.error usernameTodoMsg

/-- `UsernameStore::insert`: insert into both maps, each overwriting its
own key only. -/
def UsernameStore.insert (s : UsernameStore) (username : String) (peer_id : PeerId) :
    UsernameStore :=
  { username_peer_id_map := mapInsert s.username_peer_id_map username peer_id,
    peer_id_username_map := mapInsert s.peer_id_username_map peer_id username }

/-! ### Client (src/src/network/client.rs)

The Client methods interleave store access with a round trip to the
EventLoop.  The round trip is modelled by passing the value the
`FindPeerId` reply channel would deliver as an explicit argument. -/

/-- `Client::find_user`: issue `FindPeerId`, await `reply`; on success
insert the pair into the store.  Returns the updated store and the reply. -/
def Client.find_user (store : UsernameStore) (username : String)
    (reply : Option PeerId) : UsernameStore × Option PeerId :=
  match reply with
  | some p => (store.insert username p, some p)
  | none => (store, none)

/-- `Client::get_peer_id`: consult the store first; on a miss fall back to
`find_user`.  The store's miss path panics (`todo!`), which this model
surfaces as `Except.error`; the fallback branch is only reachable if the
store returns `Ok(None)`, which the current store never does. -/
def Client.get_peer_id (store : UsernameStore) (username : String)
    (reply : Option PeerId) : Except String (UsernameStore × Option PeerId) :=
  match store.get_peer_id username with
  | Except.error e => Except.error e
  | Except.ok cached =>
    if cached.isNone then
      Except.ok (Client.find_user store username reply)
    else
      Except.ok (store, cached)

/-- `Client::accept_trade`, parametrized by the result of username
resolution and by the value later delivered on the settlement channel. -/
def Client.accept_trade (peer_id : Option PeerId) (username : String)
    (settlement : Except String (Option Bytes)) : Except String Bytes :=
  match peer_id with
  | none => Except.error ("'" ++ username ++ "' is not a register user")
  | some _ =>
    match settlement with
    | Except.ok (some bytes) => Except.ok bytes
    | Except.ok none => Except.error "No bytes were received!"
    | Except.error error => Except.error error

/-- `Client::decline_trade`, parametrized by the result of username
resolution: after enqueueing the `RespondTrade` command (which carries no
reply channel) it returns `Ok(())` unconditionally. -/
def Client.decline_trade (peer_id : Option PeerId) (username : String) :
    Except String Unit :=
  match peer_id with
  | none => Except.error ("'" ++ username ++ "' is not a registered user")
  | some _ => Except.ok ()

/-! ### EventLoop state

The `EventLoop` struct fields below are the ones read and written by the
handlers in src/src/network/event_loop/command_handlers.rs and
src/src/network/event_loop/behaviour_handlers.rs.  The swarm itself is
replaced by the `local_peer_id`, the gossip explicit-peer set, the
Kademlia address book and the `next_id` counter for overlay-allocated
request/query ids. -/

structure EventLoop where
  local_peer_id : PeerId
  pending_register_username : List (QueryId × Chan) := []
  pending_peer_id_request : List (QueryId × Chan) := []
  pending_username_request : List (QueryId × Chan) := []
  pending_request_message : List (RequestId × Chan) := []
  pending_trade_offer_request : List (RequestId × Chan) := []
  pending_trade_response_response : List (RequestId × Chan) := []
  outgoing_trade_offers : List ((PeerId × TradeOffer) × (Bytes × String)) := []
  inbound_trade_offers : List (PeerId × TradeOffer) := []
  has_registered_username : Bool := false
  cookie : Option Nat := none
  gossip_explicit_peers : List PeerId := []
  kad_addresses : List (PeerId × Multiaddr) := []
  next_id : Nat := 0
deriving DecidableEq, Repr

/-! ### Command handlers (src/src/network/event_loop/command_handlers.rs) -/

/-- `EventLoop::handle_register_username`: lowercase the username, put the
(username → peer id) record and the inverse record with quorum one, and
record the id of the first put in the register-username pending table. -/
def EventLoop.handle_register_username (s : EventLoop) (username : String)
    (status_sender : Chan) : EventLoop × List Effect :=
  let peer_id_bytes := [s.local_peer_id.id]
  let username_bytes := utf8Bytes username.toLower
  let query_id := s.next_id
  ({ s with
      next_id := s.next_id + 2,
      pending_register_username :=
        mapInsert s.pending_register_username query_id status_sender },
   [Effect.dhtPutRecord username_bytes peer_id_bytes query_id,
    Effect.dhtPutRecord peer_id_bytes username_bytes (query_id + 1)])

/-- `EventLoop::handle_find_peer_id`: DHT get on the lowercased username
bytes; record the query id in the find-peer-id pending table. -/
def EventLoop.handle_find_peer_id (s : EventLoop) (username : String)
    (peer_id_sender : Chan) : EventLoop × List Effect :=
  let key := utf8Bytes username.toLower
  let query_id := s.next_id
  ({ s with
      next_id := s.next_id + 1,
      pending_peer_id_request :=
        mapInsert s.pending_peer_id_request query_id peer_id_sender },
   [Effect.dhtGetRecord key query_id])

/-- `EventLoop::handle_find_peer_username`: DHT get on the peer-id bytes;
record the query id in the find-username pending table. -/
def EventLoop.handle_find_peer_username (s : EventLoop) (peer_id : PeerId)
    (username_sender : Chan) : EventLoop × List Effect :=
  let key := [peer_id.id]
  let query_id := s.next_id
  ({ s with
      next_id := s.next_id + 1,
      pending_username_request :=
        mapInsert s.pending_username_request query_id username_sender },
   [Effect.dhtGetRecord key query_id])

/-- `EventLoop::handle_make_trade_offer`: reject self-addressed offers
synchronously; otherwise send the offer request, record the request id in
the trade-offer-ack pending table and the offer payload in
`outgoing_trade_offers`. -/
def EventLoop.handle_make_trade_offer (s : EventLoop) (offered_file_name : String)
    (offered_file_bytes : Bytes) (peer_id : PeerId) (requested_file_name : String)
    (requested_file_path : String) (error_sender : Chan) : EventLoop × List Effect :=
  if peer_id = s.local_peer_id then
    (s, [Effect.signalAck error_sender
          (Except.error "Sending trade offers to yourself is forbidden")])
  else
    let offer : TradeOffer :=
      { offered_file_name := offered_file_name,
        requested_file_name := requested_file_name }
    let query_id := s.next_id
    ({ s with
        next_id := s.next_id + 1,
        pending_trade_offer_request :=
          mapInsert s.pending_trade_offer_request query_id error_sender,
        outgoing_trade_offers :=
          mapInsert s.outgoing_trade_offers (peer_id, offer)
            (offered_file_bytes, requested_file_path) },
     [Effect.sendTradeOfferRequest peer_id offer query_id])

/-- `EventLoop::handle_respond_trade`: remove the tuple from
`inbound_trade_offers`; if it was absent, fail the settlement channel when
one was provided and stop.  Otherwise send the `TradeResponse` request and,
when a settlement channel was provided, record it under the request id. -/
def EventLoop.handle_respond_trade (s : EventLoop) (peer_id : PeerId)
    (requested_file_name : String) (offered_file_name : String)
    (requested_file_bytes : Option Bytes) (offered_bytes_sender : Option Chan) :
    EventLoop × List Effect :=
  let offer : TradeOffer :=
    { offered_file_name := offered_file_name,
      requested_file_name := requested_file_name }
  let removed := setRemove s.inbound_trade_offers (peer_id, offer)
  if removed.1 = false then
    match offered_bytes_sender with
    | some ch =>
      (s, [Effect.signalSettlement ch
            (Except.error ("No valid trade with this user for " ++
              offered_file_name ++ " and " ++ requested_file_name))])
    | none => (s, [])
  else
    let request_id := s.next_id
    let response : TradeResponse :=
      { requested_file_name := requested_file_name,
        offered_file_name := offered_file_name,
        requested_file_bytes := requested_file_bytes }
    let s1 := { s with
        inbound_trade_offers := removed.2,
        next_id := s.next_id + 1 }
    let s2 :=
      match offered_bytes_sender with
      | some ch =>
        { s1 with
            pending_trade_response_response :=
              mapInsert s1.pending_trade_response_response request_id ch }
      | none => s1
    (s2, [Effect.sendTradeResponseRequest peer_id response request_id])

/-- `EventLoop::handle_send_chat_message`: publish on the fixed topic and
signal the publish status synchronously.  The publish outcome comes from
the overlay and is passed in as `status`. -/
def EventLoop.handle_send_chat_message (s : EventLoop) (message : String)
    (status_sender : Chan) (status : Except String Unit) : EventLoop × List Effect :=
  (s, [Effect.publishGossip "chat-room" (utf8Bytes message),
       Effect.signalChatStatus status_sender status])

/-- `EventLoop::handle_direct_message`: reject self-addressed messages
synchronously; otherwise send the request and record its id in the
direct-message-ack pending table. -/
def EventLoop.handle_direct_message (s : EventLoop) (peer_id : PeerId)
    (message : String) (error_sender : Chan) : EventLoop × List Effect :=
  if peer_id = s.local_peer_id then
    (s, [Effect.signalAck error_sender
          (Except.error "Sending direct messages to yourself is forbidden")])
  else
    let request_id := s.next_id
    ({ s with
        next_id := s.next_id + 1,
        pending_request_message :=
          mapInsert s.pending_request_message request_id error_sender },
     [Effect.sendDirectMessageRequest peer_id message request_id])

/-! ### Behaviour handlers (src/src/network/event_loop/behaviour_handlers.rs) -/

/-- Progress payload of a DHT get (`kad::GetRecordOk`). -/
inductive GetRecordOk where
  | foundRecord (value : Bytes)
  | finishedWithNoAdditionalRecord
deriving DecidableEq, Repr

/-- `kad::GetRecordResult`; errors abstracted to their message. -/
abbrev GetRecordResult := Except String GetRecordOk

/-- A request/response message (`request_response::Message`): either an
inbound request with its response channel or a response correlated by the
outbound request id. -/
inductive RRMessage (Req Res : Type) where
  | request (request : Req) (channel : Chan)
  | response (request_id : RequestId) (response : Res)
deriving DecidableEq, Repr

/-- `EventLoop::handle_get_record`.  `fromBytes` abstracts
`PeerId::from_bytes(..).ok()`.  On a found record the handler serves
whichever of the two get pending tables still holds the query id; on an
error it signals `None` (peer-id lookups) or the error (username lookups);
on an `Ok` progress event without a record it does nothing. -/
def EventLoop.handle_get_record (fromBytes : Bytes → Option PeerId) (s : EventLoop)
    (record : GetRecordResult) (query_id : QueryId) : EventLoop × List Effect :=
  match record with
  | Except.ok (GetRecordOk.foundRecord value) =>
    match lookup s.pending_peer_id_request query_id with
    | some ch =>
      ({ s with pending_peer_id_request := mapRemove s.pending_peer_id_request query_id },
       [Effect.signalPeerId ch (fromBytes value)])
    | none =>
      match lookup s.pending_username_request query_id with
      | some ch =>
        ({ s with pending_username_request := mapRemove s.pending_username_request query_id },
         [Effect.signalUsername ch (utf8DecodeBytes value)])
      | none => (s, [])
  | Except.ok GetRecordOk.finishedWithNoAdditionalRecord => (s, [])
  | Except.error error =>
    match lookup s.pending_peer_id_request query_id with
    | some ch =>
      ({ s with pending_peer_id_request := mapRemove s.pending_peer_id_request query_id },
       [Effect.signalPeerId ch none])
    | none =>
      match lookup s.pending_username_request query_id with
      | some ch =>
        ({ s with pending_username_request := mapRemove s.pending_username_request query_id },
         [Effect.signalUsername ch (Except.error error)])
      | none => (s, [])

/-- `EventLoop::handle_put_record`: when the id is in the
register-username pending table, record success in
`has_registered_username` and signal the status. -/
def EventLoop.handle_put_record (s : EventLoop) (record : Except String Unit)
    (query_id : QueryId) : EventLoop × List Effect :=
  match lookup s.pending_register_username query_id with
  | some ch =>
    ({ s with
        pending_register_username := mapRemove s.pending_register_username query_id,
        has_registered_username := record.isOk },
     [Effect.signalRegisterStatus ch record])
  | none => (s, [])

/-- `NoResponse` payload. -/
inductive NoResponse where
  | mk
deriving DecidableEq, Repr

/-- `EventLoop::handle_direct_messaging_message`.  The response branch
calls `.remove(..).expect("Message was not pending")`: an unknown request
id is a panic, modelled as `none`. -/
def EventLoop.handle_direct_messaging_message (s : EventLoop)
    (message : RRMessage String NoResponse) (peer_id : PeerId) :
    Option (EventLoop × List Effect) :=
  match message with
  | RRMessage.request request channel =>
    some (s, [Effect.emit (Event.inboundDirectMessage peer_id request),
              Effect.sendResponseEmpty channel])
  | RRMessage.response request_id _ =>
    match lookup s.pending_request_message request_id with
    | some ch =>
      some ({ s with pending_request_message := mapRemove s.pending_request_message request_id },
            [Effect.signalAck ch (Except.ok ())])
    | none => none

/-- `EventLoop::handle_direct_messaging_outbound_failure`: also
`.remove(..).expect("Message was not pending")` — an unknown request id is
a panic, modelled as `none`. -/
def EventLoop.handle_direct_messaging_outbound_failure (s : EventLoop)
    (request_id : RequestId) (error : String) : Option (EventLoop × List Effect) :=
  match lookup s.pending_request_message request_id with
  | some ch =>
    some ({ s with pending_request_message := mapRemove s.pending_request_message request_id },
          [Effect.signalAck ch (Except.error error)])
  | none => none

/-- `EventLoop::handle_trade_offering_message`: an inbound offer is acked
with the empty response, inserted into `inbound_trade_offers` and emitted;
a response resolves the trade-offer-ack pending entry when one exists. -/
def EventLoop.handle_trade_offering_message (s : EventLoop)
    (message : RRMessage TradeOffer NoResponse) (peer_id : PeerId) :
    EventLoop × List Effect :=
  match message with
  | RRMessage.request request channel =>
    ({ s with inbound_trade_offers := setInsert s.inbound_trade_offers (peer_id, request) },
     [Effect.sendResponseEmpty channel,
      Effect.emit (Event.inboundTradeOffer request.offered_file_name peer_id
        request.requested_file_name)])
  | RRMessage.response request_id _ =>
    match lookup s.pending_trade_offer_request request_id with
    | some ch =>
      ({ s with pending_trade_offer_request := mapRemove s.pending_trade_offer_request request_id },
       [Effect.signalAck ch (Except.ok ())])
    | none => (s, [])

/-- `EventLoop::handle_trade_offering_outbound_failure`: resolve the
trade-offer-ack pending entry with the error when one exists.  Note that
`outgoing_trade_offers` is not touched. -/
def EventLoop.handle_trade_offering_outbound_failure (s : EventLoop)
    (error : String) (request_id : RequestId) : EventLoop × List Effect :=
  match lookup s.pending_trade_offer_request request_id with
  | some ch =>
    ({ s with pending_trade_offer_request := mapRemove s.pending_trade_offer_request request_id },
     [Effect.signalAck ch (Except.error error)])
  | none => (s, [])

/-- `EventLoop::handle_trade_response_message`.  A request (the
counterparty's response to our offer) removes the tuple from
`outgoing_trade_offers`; if it was absent the message is dropped.
Otherwise the handler emits `InboundTradeResponse`, writes the received
bytes (accept case) and answers with the offered bytes, or answers with
`None` (decline case).  A response resolves the settlement pending entry
when one exists. -/
def EventLoop.handle_trade_response_message (s : EventLoop)
    (message : RRMessage TradeResponse TradeResponseResponse) (peer_id : PeerId) :
    EventLoop × List Effect :=
  match message with
  | RRMessage.request request channel =>
    let offer : TradeOffer :=
      { offered_file_name := request.offered_file_name,
        requested_file_name := request.requested_file_name }
    let entry := lookup s.outgoing_trade_offers (peer_id, offer)
    let s1 := { s with
        outgoing_trade_offers := mapRemove s.outgoing_trade_offers (peer_id, offer) }
    match entry with
    | none => (s1, [])
    | some (offered_file_bytes, requested_file_path) =>
      let emitted := Effect.emit (Event.inboundTradeResponse peer_id
        request.offered_file_name request.requested_file_name
        request.requested_file_bytes.isSome)
      match request.requested_file_bytes with
      | some received_bytes =>
        (s1, [emitted,
              Effect.writeFile requested_file_path received_bytes,
              Effect.sendTradeResponseResponse channel
                { offered_file_name := request.offered_file_name,
                  requested_file_name := request.requested_file_name,
                  offered_file_bytes := some offered_file_bytes }])
      | none =>
        (s1, [emitted,
              Effect.sendTradeResponseResponse channel
                { offered_file_name := request.offered_file_name,
                  requested_file_name := request.requested_file_name,
                  offered_file_bytes := none }])
  | RRMessage.response request_id response =>
    match lookup s.pending_trade_response_response request_id with
    | some ch =>
      ({ s with
          pending_trade_response_response :=
            mapRemove s.pending_trade_response_response request_id },
       [Effect.signalSettlement ch (Except.ok response.offered_file_bytes)])
    | none => (s, [])

/-- `EventLoop::handle_trade_response_outbound_failure`: resolve the
settlement pending entry with the error when one exists. -/
def EventLoop.handle_trade_response_outbound_failure (s : EventLoop)
    (request_id : RequestId) (error : String) : EventLoop × List Effect :=
  match lookup s.pending_trade_response_response request_id with
  | some ch =>
    ({ s with
        pending_trade_response_response :=
          mapRemove s.pending_trade_response_response request_id },
     [Effect.signalSettlement ch (Except.error error)])
  | none => (s, [])

/-! ### Rendezvous discovery (behaviour_handlers.rs, handle_rendezvous_discovered) -/

/-- `Multiaddr::ends_with(Multiaddr::empty().with(P2p(peer)))`. -/
def endsWithP2p (address : Multiaddr) (peer : PeerId) : Bool :=
  decide (address.getLast? = some (MaComponent.p2p peer))

/-- Append the `/p2p/<peer>` suffix when it is absent. -/
def withP2pSuffix (address : Multiaddr) (peer : PeerId) : Multiaddr :=
  if endsWithP2p address peer then address else address ++ [MaComponent.p2p peer]

/-- Body of the per-registration work inside the discovery loop: dial each
address (with `/p2p` suffix appended when absent), add each raw address to
the DHT address book, then add the peer to the gossip explicit set. -/
def processRegistration (s : EventLoop) (r : Registration) : EventLoop × List Effect :=
  ({ s with
      kad_addresses := s.kad_addresses ++ r.addresses.map (fun a => (r.peer_id, a)),
      gossip_explicit_peers := setInsert s.gossip_explicit_peers r.peer_id },
   r.addresses.flatMap (fun address =>
     [Effect.dial (withP2pSuffix address r.peer_id),
      Effect.kadAddAddress r.peer_id address]) ++
     [Effect.gossipAddExplicitPeer r.peer_id])

/-- The registration loop as written in the source: a registration whose
peer is the local peer causes an early `return`, abandoning the rest of
the batch. -/
def discoverLoop (s : EventLoop) : List Registration → EventLoop × List Effect
  | [] => (s, [])
  | r :: rest =>
    if r.peer_id = s.local_peer_id then (s, [])
    else
      let step := processRegistration s r
      let tail := discoverLoop step.1 rest
      (tail.1, step.2 ++ tail.2)

/-- `EventLoop::handle_rendezvous_discovered`: always store the cookie;
ignore batches with fewer than two registrations; otherwise run the
registration loop. -/
def EventLoop.handle_rendezvous_discovered (s : EventLoop)
    (registrations : List Registration) (cookie : Nat) : EventLoop × List Effect :=
  let s1 := { s with cookie := some cookie }
  if registrations.length < 2 then (s1, [])
  else discoverLoop s1 registrations

/-! ### Spec-side definitions

These state, in the spec's words, the properties the claims quantify
over; theorems below compare them with the embedded code. -/

/-- The spec's UsernameStore invariant: `(u,p) in forward ⇔ (p,u) in
reverse`. -/
def ConsistentHalves (s : UsernameStore) : Prop :=
  ∀ u p, lookup s.username_peer_id_map u = some p ↔
    lookup s.peer_id_username_map p = some u

/-- Run a sequence of `UsernameStore::insert` calls. -/
def applyInserts (l : List (String × PeerId)) (s : UsernameStore) : UsernameStore :=
  l.foldl (fun acc q => acc.insert q.1 q.2) s

/-- A single insert is collision-free on `s`: its username and peer id are
either fresh or already bound to exactly each other. -/
def insOkB (s : UsernameStore) (u : String) (p : PeerId) : Bool :=
  (match lookup s.username_peer_id_map u with
   | none => true
   | some q => decide (q = p)) &&
  (match lookup s.peer_id_username_map p with
   | none => true
   | some v => decide (v = u))

/-- Every insert of the sequence is collision-free on the store it is
applied to. -/
def okSeqB : UsernameStore → List (String × PeerId) → Bool
  | _, [] => true
  | s, q :: rest => insOkB s q.1 q.2 && okSeqB (s.insert q.1 q.2) rest

/-- Reference discovery processing per the spec's words: handle every
registration of the batch, with no early exit, skipping nothing. -/
def discoverAll (s : EventLoop) : List Registration → EventLoop × List Effect
  | [] => (s, [])
  | r :: rest =>
    let step := processRegistration s r
    let tail := discoverAll step.1 rest
    (tail.1, step.2 ++ tail.2)

/-! ### Helper lemmas about the association-list maps -/

theorem lookup_nil [DecidableEq α] (x : α) : lookup ([] : List (α × β)) x = none := by
  simp [lookup]

theorem lookup_cons [DecidableEq α] (a : α × β) (m : List (α × β)) (x : α) :
    lookup (a :: m) x = if a.1 = x then some a.2 else lookup m x := by
  by_cases h : a.1 = x
  · simp [lookup, List.find?_cons, h]
  · simp [lookup, List.find?_cons, h]

theorem lookup_filter_ne [DecidableEq α] (m : List (α × β)) (k x : α) :
    lookup (m.filter (fun p => ¬ p.1 = k)) x =
      if x = k then none else lookup m x := by
  induction m with
  | nil => simp [lookup]
  | cons a m ih =>
    by_cases hk : a.1 = k
    · rw [List.filter_cons_of_neg (by simp [hk])]
      rw [ih, lookup_cons]
      by_cases hx : x = k
      · simp [hx]
      · have : ¬ a.1 = x := by
          intro h; exact hx (by rw [← h, hk])
        simp [hx, this]
    · rw [List.filter_cons_of_pos (by simp [hk])]
      rw [lookup_cons, lookup_cons, ih]
      by_cases hax : a.1 = x
      · have hx : ¬ x = k := by intro h; exact hk (by rw [hax, h])
        simp [hax, hx]
      · simp [hax]

theorem lookup_mapInsert [DecidableEq α] (m : List (α × β)) (k : α) (v : β) (x : α) :
    lookup (mapInsert m k v) x = if x = k then some v else lookup m x := by
  unfold mapInsert
  rw [lookup_cons]
  by_cases hx : x = k
  · simp [hx]
  · have : ¬ k = x := fun h => hx h.symm
    rw [if_neg this, lookup_filter_ne]
    simp [hx]

theorem lookup_mapRemove [DecidableEq α] (m : List (α × β)) (k x : α) :
    lookup (mapRemove m k) x = if x = k then none else lookup m x :=
  lookup_filter_ne m k x

/-! ### UsernameStore consistency lemmas -/

theorem consistentHalves_empty : ConsistentHalves UsernameStore.empty := by
  intro u p
  simp [UsernameStore.empty, lookup]

theorem insOkB_forward (s : UsernameStore) (u : String) (p : PeerId)
    (h : insOkB s u p = true) :
    lookup s.username_peer_id_map u = none ∨
      lookup s.username_peer_id_map u = some p := by
  unfold insOkB at h
  rw [Bool.and_eq_true] at h
  cases hf : lookup s.username_peer_id_map u with
  | none => exact Or.inl rfl
  | some q =>
    right
    have := h.1
    rw [hf] at this
    simp only [decide_eq_true_eq] at this
    rw [this]

theorem insOkB_reverse (s : UsernameStore) (u : String) (p : PeerId)
    (h : insOkB s u p = true) :
    lookup s.peer_id_username_map p = none ∨
      lookup s.peer_id_username_map p = some u := by
  unfold insOkB at h
  rw [Bool.and_eq_true] at h
  cases hr : lookup s.peer_id_username_map p with
  | none => exact Or.inl rfl
  | some v =>
    right
    have := h.2
    rw [hr] at this
    simp only [decide_eq_true_eq] at this
    rw [this]

theorem consistent_insert (s : UsernameStore) (u : String) (p : PeerId)
    (hs : ConsistentHalves s) (hok : insOkB s u p = true) :
    ConsistentHalves (s.insert u p) := by
  have hf := insOkB_forward s u p hok
  have hr := insOkB_reverse s u p hok
  intro v q
  simp only [UsernameStore.insert, lookup_mapInsert]
  by_cases hv : v = u
  · subst hv
    by_cases hq : q = p
    · subst hq; simp
    · rw [if_pos rfl, if_neg hq]
      constructor
      · intro h
        exact absurd (Option.some.inj h).symm hq
      · intro h
        have hfw : lookup s.username_peer_id_map v = some q := (hs v q).mpr h
        rcases hf with hf | hf
        · rw [hf] at hfw; cases hfw
        · rw [hf] at hfw
          exact absurd (Option.some.inj hfw).symm hq
  · by_cases hq : q = p
    · subst hq
      rw [if_neg hv, if_pos rfl]
      constructor
      · intro h
        have hrv : lookup s.peer_id_username_map q = some v := (hs v q).mp h
        rcases hr with hr | hr
        · rw [hr] at hrv; cases hrv
        · rw [hr] at hrv
          exact absurd (Option.some.inj hrv).symm hv
      · intro h
        exact absurd (Option.some.inj h).symm hv
    · rw [if_neg hv, if_neg hq]
      exact hs v q

theorem okSeqB_consistent (l : List (String × PeerId)) (s : UsernameStore)
    (hs : ConsistentHalves s) (h : okSeqB s l = true) :
    ConsistentHalves (applyInserts l s) := by
  induction l generalizing s with
  | nil => simpa [applyInserts] using hs
  | cons a rest ih =>
    unfold okSeqB at h
    rw [Bool.and_eq_true] at h
    have h1 := consistent_insert s a.1 a.2 hs h.1
    have h2 := ih (s.insert a.1 a.2) h1 h.2
    simpa [applyInserts, List.foldl] using h2

/-! ### Rendezvous discovery loop lemmas -/

theorem processRegistration_local (s : EventLoop) (r : Registration) :
    (processRegistration s r).1.local_peer_id = s.local_peer_id := rfl

theorem processRegistration_cookie (s : EventLoop) (r : Registration) :
    (processRegistration s r).1.cookie = s.cookie := rfl

theorem discoverAll_cookie (regs : List Registration) (s : EventLoop) :
    (discoverAll s regs).1.cookie = s.cookie := by
  induction regs generalizing s with
  | nil => rfl
  | cons r rest ih =>
    simp only [discoverAll]
    rw [ih, processRegistration_cookie]

theorem discoverLoop_eq_takeWhile (regs : List Registration) (s : EventLoop) :
    discoverLoop s regs =
      discoverAll s
        (regs.takeWhile (fun r => decide (r.peer_id ≠ s.local_peer_id))) := by
  induction regs generalizing s with
  | nil => rfl
  | cons r rest ih =>
    by_cases h : r.peer_id = s.local_peer_id
    · simp [discoverLoop, discoverAll, List.takeWhile, h]
    · have hd : decide (r.peer_id ≠ s.local_peer_id) = true := by simp [h]
      simp only [discoverLoop, if_neg h, List.takeWhile, hd]
      simp only [discoverAll]
      rw [ih]
      simp only [processRegistration_local]

theorem discoverLoop_cookie (regs : List Registration) (s : EventLoop) :
    (discoverLoop s regs).1.cookie = s.cookie := by
  rw [discoverLoop_eq_takeWhile, discoverAll_cookie]

/-! ### Claim theorems -/

/-- C1 counterexample: with query id 5 pending in the find-peer-id table, a
get result that is Ok but contains no record leaves the pending entry in
place and signals nothing — contradicting the claim's clause that the
entry is removed and its channel signaled even when the get result is Ok
but contains no record. -/
theorem C1_ok_no_record_counterexample :
    (EventLoop.handle_get_record (fun _ => none)
        ({ local_peer_id := ⟨0⟩, pending_peer_id_request := [(5, 7)] } : EventLoop)
        (Except.ok GetRecordOk.finishedWithNoAdditionalRecord) 5).1.pending_peer_id_request =
      [(5, 7)] ∧
    (EventLoop.handle_get_record (fun _ => none)
        ({ local_peer_id := ⟨0⟩, pending_peer_id_request := [(5, 7)] } : EventLoop)
        (Except.ok GetRecordOk.finishedWithNoAdditionalRecord) 5).2 = [] := by
  exact ⟨rfl, rfl⟩

/-- C1 (amended): for a query id pending in the find-peer-id table, the
handler removes the entry and signals the channel exactly on a found
record (with the decoded peer id) or on an error (with None; query
exhaustion surfaces as an error result); an Ok result without a record
leaves the entry in place and signals nothing; and once the id is in
neither get table, any further get-record event for it is a no-op. -/
theorem C1_find_peer_id_reply_amended (fromBytes : Bytes → Option PeerId)
    (s : EventLoop) (query_id : QueryId) (ch : Chan)
    (hpend : lookup s.pending_peer_id_request query_id = some ch) :
    (∀ value,
      EventLoop.handle_get_record fromBytes s
          (Except.ok (GetRecordOk.foundRecord value)) query_id =
        ({ s with pending_peer_id_request :=
            mapRemove s.pending_peer_id_request query_id },
         [Effect.signalPeerId ch (fromBytes value)])) ∧
    (∀ error,
      EventLoop.handle_get_record fromBytes s (Except.error error) query_id =
        ({ s with pending_peer_id_request :=
            mapRemove s.pending_peer_id_request query_id },
         [Effect.signalPeerId ch none])) ∧
    (EventLoop.handle_get_record fromBytes s
        (Except.ok GetRecordOk.finishedWithNoAdditionalRecord) query_id = (s, [])) ∧
    (∀ (t : EventLoop) (record : GetRecordResult),
      lookup t.pending_peer_id_request query_id = none →
      lookup t.pending_username_request query_id = none →
      EventLoop.handle_get_record fromBytes t record query_id = (t, [])) := by
  refine ⟨?_, ?_, rfl, ?_⟩
  · intro value
    simp [EventLoop.handle_get_record, hpend]
  · intro error
    simp [EventLoop.handle_get_record, hpend]
  · intro t record h1 h2
    cases record with
    | ok okv =>
      cases okv with
      | foundRecord value => simp [EventLoop.handle_get_record, h1, h2]
      | finishedWithNoAdditionalRecord => rfl
    | error e => simp [EventLoop.handle_get_record, h1, h2]

/-- C1 witness: the amended theorem applied at a concretely pending state
and an error result. -/
theorem C1_find_peer_id_reply_witness :
    EventLoop.handle_get_record (fun _ => none)
        ({ local_peer_id := ⟨0⟩, pending_peer_id_request := [(5, 7)] } : EventLoop)
        (Except.error "NotFound") 5 =
      (({ local_peer_id := ⟨0⟩ } : EventLoop), [Effect.signalPeerId 7 none]) :=
  (C1_find_peer_id_reply_amended (fun _ => none)
      ({ local_peer_id := ⟨0⟩, pending_peer_id_request := [(5, 7)] } : EventLoop)
      5 7 (by decide)).2.1 "NotFound"

/-- C2: evaluating the code at the failing input.  `UsernameStore::get_peer_id`
applied to an uncached username hits `todo!()` — a panic, modelled as an
error — rather than returning None, and `Client::get_peer_id` therefore
also panics instead of falling back to the `FindPeerId` command, whatever
reply that command would have produced. -/
theorem C2_get_peer_id_uncached_panics :
    UsernameStore.get_peer_id UsernameStore.empty "alice" =
      Except.error peerIdTodoMsg ∧
    (∀ reply : Option PeerId,
      Client.get_peer_id UsernameStore.empty "alice" reply =
        Except.error peerIdTodoMsg) :=
  ⟨rfl, fun _ => rfl⟩

/-- C3 counterexample: make a trade offer to peer 1 (allocating request id
0), then run the trade-offer outbound-failure handler for request id 0;
the (peer 1, offer) key is still present in OutgoingOffers — contradicting
the claim that after the failure handler runs the key is gone. -/
theorem C3_outbound_failure_counterexample :
    lookup
      ((EventLoop.handle_trade_offering_outbound_failure
          (EventLoop.handle_make_trade_offer ({ local_peer_id := ⟨0⟩ } : EventLoop)
            "a.txt" [65] ⟨1⟩ "b.txt" "./a_out" 3).1
          "Timeout" 0).1.outgoing_trade_offers)
      (⟨1⟩, { offered_file_name := "a.txt", requested_file_name := "b.txt" }) =
      some ([65], "./a_out") := by decide

/-- C3 (amended): an OutgoingOffers entry is removed exactly when the
counterparty's trade response (the inbound /trade-response/1 request with
the matching tuple) arrives; the trade-offer outbound-failure handler
resolves the pending ack entry but leaves `outgoing_trade_offers`
unchanged, so after a transport failure the entry is still present. -/
theorem C3_outgoing_offers_amended :
    (∀ (s : EventLoop) (error : String) (request_id : RequestId),
      (EventLoop.handle_trade_offering_outbound_failure s error
          request_id).1.outgoing_trade_offers = s.outgoing_trade_offers) ∧
    (∀ (s : EventLoop) (request : TradeResponse) (channel : Chan) (peer_id : PeerId),
      (EventLoop.handle_trade_response_message s
          (RRMessage.request request channel) peer_id).1.outgoing_trade_offers =
        mapRemove s.outgoing_trade_offers
          (peer_id,
            { offered_file_name := request.offered_file_name,
              requested_file_name := request.requested_file_name })) := by
  constructor
  · intro s error request_id
    unfold EventLoop.handle_trade_offering_outbound_failure
    cases lookup s.pending_trade_offer_request request_id <;> rfl
  · intro s request channel peer_id
    simp only [EventLoop.handle_trade_response_message]
    cases lookup s.outgoing_trade_offers
        (peer_id,
          ({ offered_file_name := request.offered_file_name,
             requested_file_name := request.requested_file_name } : TradeOffer)) with
    | none => rfl
    | some entry =>
      cases request.requested_file_bytes <;> rfl

/-- C4 counterexample: insert ("alice", peer 1) then ("bob", peer 1).  The
forward map still holds ("alice", peer 1) while peer 1's reverse entry is
"bob": the halves disagree and the stale forward mapping was not
overwritten — the store holds inconsistent halves. -/
theorem C4_inconsistent_halves_counterexample :
    ¬ ConsistentHalves
        (applyInserts [("alice", ⟨1⟩), ("bob", ⟨1⟩)] UsernameStore.empty) := by
  intro h
  have h1 := (h "alice" ⟨1⟩).mp (by decide)
  exact absurd h1 (by decide)

/-- C4 (amended): `insert` overwrites only the half keyed by each colliding
key, so re-binding an existing username or peer id leaves a stale entry in
the other half; the two-way invariant (u,p) ∈ forward ⇔ (p,u) ∈ reverse
holds for every insert sequence in which each inserted username and peer
id is fresh or re-binds exactly the same pair. -/
theorem C4_consistency_amended (l : List (String × PeerId))
    (h : okSeqB UsernameStore.empty l = true) :
    ConsistentHalves (applyInserts l UsernameStore.empty) :=
  okSeqB_consistent l UsernameStore.empty consistentHalves_empty h

/-- C4 witness: the amended theorem applied to a concrete collision-free
insert sequence. -/
theorem C4_consistency_witness :
    okSeqB UsernameStore.empty [("alice", ⟨1⟩), ("bob", ⟨2⟩)] = true ∧
    ConsistentHalves
      (applyInserts [("alice", ⟨1⟩), ("bob", ⟨2⟩)] UsernameStore.empty) :=
  ⟨by decide, C4_consistency_amended [("alice", ⟨1⟩), ("bob", ⟨2⟩)] (by decide)⟩

/-- C5 counterexample: after inserting ("Alice", peer 1), looking up the
exact string "Alice" returns peer 1 but looking up the case variation
"alice" misses the cache and hits the unimplemented-fallback panic — the
two case variations of the same username do not resolve identically. -/
theorem C5_case_sensitivity_counterexample :
    UsernameStore.get_peer_id (UsernameStore.empty.insert "Alice" ⟨1⟩) "Alice" =
      Except.ok (some ⟨1⟩) ∧
    UsernameStore.get_peer_id (UsernameStore.empty.insert "Alice" ⟨1⟩) "alice" =
      Except.error peerIdTodoMsg := by
  exact ⟨rfl, rfl⟩

/-- C5 (amended): after insert(u,p), looking up the exact inserted string
returns p and the reverse lookup of p returns u; store lookups are
case-sensitive (a different case variation misses the cache);
case-insensitive resolution exists only at the DHT layer, where
`handle_find_peer_id` keys the get by the lowercased username. -/
theorem C5_store_roundtrip_amended (s : UsernameStore) (u : String) (p : PeerId) :
    UsernameStore.get_peer_id (s.insert u p) u = Except.ok (some p) ∧
    UsernameStore.get_username (s.insert u p) p = Except.ok (some u) ∧
    (∀ (t : EventLoop) (ch : Chan),
      (EventLoop.handle_find_peer_id t u ch).2 =
        [Effect.dhtGetRecord (utf8Bytes u.toLower) t.next_id]) := by
  refine ⟨?_, ?_, fun t ch => rfl⟩
  · unfold UsernameStore.get_peer_id UsernameStore.insert
    simp [lookup_mapInsert]
  · unfold UsernameStore.get_username UsernameStore.insert
    simp [lookup_mapInsert]

/-- C6: a MakeTradeOffer or DirectMessage command whose peer id equals the
local peer id is rejected synchronously — the handler's only effect is the
error signal on the reply channel and the state is returned unchanged (no
request sent, no pending-table entry, no OutgoingOffers entry). -/
theorem C6_self_addressing_rejected (s : EventLoop) (peer_id : PeerId)
    (offered_file_name requested_file_name requested_file_path message : String)
    (offered_file_bytes : Bytes) (ch : Chan)
    (h : peer_id = s.local_peer_id) :
    EventLoop.handle_make_trade_offer s offered_file_name offered_file_bytes peer_id
        requested_file_name requested_file_path ch =
      (s, [Effect.signalAck ch
            (Except.error "Sending trade offers to yourself is forbidden")]) ∧
    EventLoop.handle_direct_message s peer_id message ch =
      (s, [Effect.signalAck ch
            (Except.error "Sending direct messages to yourself is forbidden")]) := by
  subst h
  constructor
  · simp [EventLoop.handle_make_trade_offer]
  · simp [EventLoop.handle_direct_message]

/-- C6 witness: the theorem applied at a concrete self-addressed command. -/
theorem C6_self_addressing_witness :
    EventLoop.handle_make_trade_offer ({ local_peer_id := ⟨0⟩ } : EventLoop)
        "a" [1] ⟨0⟩ "b" "p" 2 =
      (({ local_peer_id := ⟨0⟩ } : EventLoop),
       [Effect.signalAck 2
          (Except.error "Sending trade offers to yourself is forbidden")]) ∧
    EventLoop.handle_direct_message ({ local_peer_id := ⟨0⟩ } : EventLoop) ⟨0⟩ "hi" 2 =
      (({ local_peer_id := ⟨0⟩ } : EventLoop),
       [Effect.signalAck 2
          (Except.error "Sending direct messages to yourself is forbidden")]) :=
  C6_self_addressing_rejected ({ local_peer_id := ⟨0⟩ } : EventLoop) ⟨0⟩
    "a" "b" "p" "hi" [1] 2 rfl

/-- C7 counterexample: with an empty InboundOffers set, a decline (no
bytes, no settlement channel) for an unknown tuple produces no effect at
all and `Client::decline_trade` returns Ok — the caller is not failed with
a no-such-pending-offer error, contradicting the claim's decline half. -/
theorem C7_decline_unreported_counterexample :
    EventLoop.handle_respond_trade ({ local_peer_id := ⟨0⟩ } : EventLoop)
        ⟨1⟩ "b" "a" none none =
      (({ local_peer_id := ⟨0⟩ } : EventLoop), []) ∧
    Client.decline_trade (some ⟨1⟩) "bob" = Except.ok () := by
  exact ⟨rfl, rfl⟩

/-- C7 (amended): a RespondTrade whose tuple is not in InboundOffers never
touches the overlay and leaves the state unchanged; when a settlement
channel was provided (accept) that channel is failed with the
no-such-pending-offer error, but a decline carries no channel, so the
error goes unreported and the caller's decline_trade returns Ok. -/
theorem C7_respond_trade_missing_amended (s : EventLoop) (peer_id : PeerId)
    (requested_file_name offered_file_name : String)
    (requested_file_bytes : Option Bytes) (sender : Option Chan)
    (h : (peer_id,
        ({ offered_file_name := offered_file_name,
           requested_file_name := requested_file_name } : TradeOffer)) ∉
        s.inbound_trade_offers) :
    (EventLoop.handle_respond_trade s peer_id requested_file_name offered_file_name
        requested_file_bytes sender).1 = s ∧
    (∀ ch, sender = some ch →
      EventLoop.handle_respond_trade s peer_id requested_file_name offered_file_name
          requested_file_bytes sender =
        (s, [Effect.signalSettlement ch
              (Except.error ("No valid trade with this user for " ++
                offered_file_name ++ " and " ++ requested_file_name))])) ∧
    (sender = none →
      EventLoop.handle_respond_trade s peer_id requested_file_name offered_file_name
          requested_file_bytes sender = (s, [])) := by
  have hb : (setRemove s.inbound_trade_offers
      (peer_id,
        ({ offered_file_name := offered_file_name,
           requested_file_name := requested_file_name } : TradeOffer))).1 = false := by
    simp [setRemove, h]
  refine ⟨?_, ?_, ?_⟩
  · simp only [EventLoop.handle_respond_trade, hb]
    cases sender <;> simp
  · intro ch hch
    subst hch
    simp only [EventLoop.handle_respond_trade, hb]
    simp
  · intro hch
    subst hch
    simp only [EventLoop.handle_respond_trade, hb]
    simp

/-- C7 witness: the amended theorem applied at a concrete accept for an
unknown tuple. -/
theorem C7_respond_trade_missing_witness :
    EventLoop.handle_respond_trade ({ local_peer_id := ⟨0⟩ } : EventLoop)
        ⟨1⟩ "b" "a" (some [66]) (some 4) =
      (({ local_peer_id := ⟨0⟩ } : EventLoop),
       [Effect.signalSettlement 4
          (Except.error ("No valid trade with this user for " ++
            "a" ++ " and " ++ "b"))]) :=
  (C7_respond_trade_missing_amended ({ local_peer_id := ⟨0⟩ } : EventLoop)
      ⟨1⟩ "b" "a" (some [66]) (some 4) (by decide)).2.1 4 rfl

/-- C8 counterexample: a direct-messaging outbound failure and a
direct-messaging response for a request id absent from the pending table
both panic (the handlers call `.expect("Message was not pending")`,
modelled by a `none` result) — the event is not silently dropped. -/
theorem C8_unknown_id_panics_counterexample :
    EventLoop.handle_direct_messaging_outbound_failure
        ({ local_peer_id := ⟨0⟩ } : EventLoop) 7 "Timeout" = none ∧
    EventLoop.handle_direct_messaging_message ({ local_peer_id := ⟨0⟩ } : EventLoop)
        (RRMessage.response 7 NoResponse.mk) ⟨1⟩ = none := by
  exact ⟨rfl, rfl⟩

/-- C8 (amended): for a request id not in the direct-message pending
table, both the response handler and the outbound-failure handler panic
(they assert pendency) instead of silently dropping; the silent-drop
discipline holds for the trade-offer ack handler and the trade-response
settlement handler, which are no-ops on unknown ids. -/
theorem C8_unknown_id_amended (s : EventLoop) (request_id : RequestId)
    (h : lookup s.pending_request_message request_id = none) :
    (∀ error,
      EventLoop.handle_direct_messaging_outbound_failure s request_id error = none) ∧
    (∀ peer_id,
      EventLoop.handle_direct_messaging_message s
        (RRMessage.response request_id NoResponse.mk) peer_id = none) ∧
    (∀ error rid2, lookup s.pending_trade_offer_request rid2 = none →
      EventLoop.handle_trade_offering_outbound_failure s error rid2 = (s, [])) ∧
    (∀ (rid3 : RequestId) (resp : TradeResponseResponse) (peer_id : PeerId),
      lookup s.pending_trade_response_response rid3 = none →
      EventLoop.handle_trade_response_message s (RRMessage.response rid3 resp) peer_id =
        (s, [])) := by
  refine ⟨?_, ?_, ?_, ?_⟩
  · intro error
    simp [EventLoop.handle_direct_messaging_outbound_failure, h]
  · intro peer_id
    simp [EventLoop.handle_direct_messaging_message, h]
  · intro error rid2 h2
    simp [EventLoop.handle_trade_offering_outbound_failure, h2]
  · intro rid3 resp peer_id h3
    simp [EventLoop.handle_trade_response_message, h3]

/-- C8 witness: the amended theorem applied at a concrete empty pending
state. -/
theorem C8_unknown_id_witness :
    EventLoop.handle_direct_messaging_outbound_failure
        ({ local_peer_id := ⟨0⟩ } : EventLoop) 9 "ConnectionClosed" = none :=
  (C8_unknown_id_amended ({ local_peer_id := ⟨0⟩ } : EventLoop) 9 (by decide)).1
    "ConnectionClosed"

/-- C9 counterexample: a Discovered batch holding a single registration for
a non-local peer with one advertised address is ignored apart from the
cookie: no dial is issued and the peer joins neither the gossip explicit
set nor the DHT address book — contradicting the claim that every non-self
registration is processed regardless of batch size. -/
theorem C9_single_registration_counterexample :
    (EventLoop.handle_rendezvous_discovered ({ local_peer_id := ⟨0⟩ } : EventLoop)
        [⟨⟨1⟩, [[MaComponent.other "/ip4/addr"]]⟩] 9).2 = [] ∧
    (EventLoop.handle_rendezvous_discovered ({ local_peer_id := ⟨0⟩ } : EventLoop)
        [⟨⟨1⟩, [[MaComponent.other "/ip4/addr"]]⟩] 9).1.gossip_explicit_peers = [] ∧
    (EventLoop.handle_rendezvous_discovered ({ local_peer_id := ⟨0⟩ } : EventLoop)
        [⟨⟨1⟩, [[MaComponent.other "/ip4/addr"]]⟩] 9).1.kad_addresses = [] := by
  exact ⟨rfl, rfl, rfl⟩

/-- C9 (amended): the handler always stores the cookie; a batch with fewer
than two registrations is otherwise ignored; a batch with at least two is
processed in order only up to (and excluding) the first self-registration,
each processed registration being dialed per address (with the /p2p suffix
appended when absent) and added to the DHT address book and the gossip
explicit set. -/
theorem C9_rendezvous_discovered_amended (s : EventLoop)
    (registrations : List Registration) (cookie : Nat) :
    (EventLoop.handle_rendezvous_discovered s registrations cookie).1.cookie =
      some cookie ∧
    (registrations.length < 2 →
      EventLoop.handle_rendezvous_discovered s registrations cookie =
        ({ s with cookie := some cookie }, [])) ∧
    (2 ≤ registrations.length →
      EventLoop.handle_rendezvous_discovered s registrations cookie =
        discoverAll { s with cookie := some cookie }
          (registrations.takeWhile
            (fun r => decide (r.peer_id ≠ s.local_peer_id)))) := by
  refine ⟨?_, ?_, ?_⟩
  · unfold EventLoop.handle_rendezvous_discovered
    by_cases h : registrations.length < 2
    · simp [h]
    · simp [h, discoverLoop_cookie]
  · intro h
    simp [EventLoop.handle_rendezvous_discovered, h]
  · intro h
    have h2 : ¬ registrations.length < 2 := by omega
    simp only [EventLoop.handle_rendezvous_discovered, if_neg h2]
    rw [discoverLoop_eq_takeWhile]

/-- C9 witness: the amended theorem applied at a concrete two-registration
batch. -/
theorem C9_rendezvous_discovered_witness :
    2 ≤ ([⟨⟨1⟩, [[MaComponent.other "a1"]]⟩,
          ⟨⟨2⟩, [[MaComponent.other "a2"]]⟩] : List Registration).length ∧
    EventLoop.handle_rendezvous_discovered ({ local_peer_id := ⟨0⟩ } : EventLoop)
        [⟨⟨1⟩, [[MaComponent.other "a1"]]⟩, ⟨⟨2⟩, [[MaComponent.other "a2"]]⟩] 9 =
      discoverAll { ({ local_peer_id := ⟨0⟩ } : EventLoop) with cookie := some 9 }
        (([⟨⟨1⟩, [[MaComponent.other "a1"]]⟩,
           ⟨⟨2⟩, [[MaComponent.other "a2"]]⟩] : List Registration).takeWhile
          (fun r => decide (r.peer_id ≠
            ({ local_peer_id := ⟨0⟩ } : EventLoop).local_peer_id))) :=
  ⟨by decide,
   (C9_rendezvous_discovered_amended ({ local_peer_id := ⟨0⟩ } : EventLoop)
      [⟨⟨1⟩, [[MaComponent.other "a1"]]⟩, ⟨⟨2⟩, [[MaComponent.other "a2"]]⟩] 9).2.2
     (by decide)⟩

/-- C10: `Client::accept_trade` never returns an empty success: a
settlement outcome of Ok(None) is converted to the error "No bytes were
received!", and an Ok result of accept_trade forces the settlement channel
to have delivered exactly those bytes. -/
theorem C10_accept_trade_no_empty_success :
    (∀ (p : PeerId) (username : String),
      Client.accept_trade (some p) username (Except.ok none) =
        Except.error "No bytes were received!") ∧
    (∀ (peer_id : Option PeerId) (username : String)
        (settlement : Except String (Option Bytes)) (bytes : Bytes),
      Client.accept_trade peer_id username settlement = Except.ok bytes →
      settlement = Except.ok (some bytes)) := by
  constructor
  · intro p username
    rfl
  · intro peer_id username settlement bytes h
    cases peer_id with
    | none => exact absurd h (by simp [Client.accept_trade])
    | some p =>
      cases settlement with
      | error e => exact absurd h (by simp [Client.accept_trade])
      | ok o =>
        cases o with
        | none => exact absurd h (by simp [Client.accept_trade])
        | some bs =>
          have hb : bs = bytes := by
            simpa [Client.accept_trade] using h
          rw [hb]

/-- C10 witness: the implication applied at a concrete successful
settlement. -/
theorem C10_accept_trade_witness :
    (Except.ok (some ([66] : Bytes)) : Except String (Option Bytes)) =
      Except.ok (some [66]) :=
  C10_accept_trade_no_empty_success.2 (some ⟨1⟩) "bob"
    (Except.ok (some [66])) [66] rfl

end DecentShare
